import Mathlib

/-!
Verification of the BLE transport layer of OpenEPaperCliTool.

Shallow embedding of:
  - `eink_cli/ble/connection.py` (`BLEConnection`: `__aenter__` retry loop,
    `_cleanup`, `_notification_callback`, `write_command_with_response`),
  - `eink_cli/ble/discovery.py` (`KNOWN_MANUFACTURER_IDS`, `_parse_device`,
    `find_device_by_mac`),
  - `eink_cli/device.py` (`DeviceManager.upload_image` retry loop).

Durations and timeouts in the Python source are floats whose values and
arithmetic (`min`, `+`, `*`, `2 ** attempt`) are exact in the decimals used,
so they are modelled as rationals.
-/

namespace EinkCli

/-- A byte string (contents of a `bytes` value). -/
abbrev Bytes := List Nat

/-- The Python exception classes that can cross the boundaries modelled here.
From `eink_cli/ble/exceptions.py`: `BLEConnectionError`, `BLEProtocolError`,
`BLETimeoutError` each subclass `BLEError` directly (none subclasses another);
`BleakNotFoundError` and `asyncio.TimeoutError` come from the libraries;
`genericError` stands for any other `Exception`. -/
inductive PyExc
  | bleakNotFoundError
  | bleConnectionError
  | bleProtocolError
  | bleTimeoutError
  | asyncioTimeoutError
  | genericError
  deriving DecidableEq, Repr

/-- `isinstance(e, (BleakNotFoundError, BLEConnectionError, asyncio.TimeoutError))`:
the tuple of the first `except` clause of `BLEConnection.__aenter__`
(connection.py line 99).  `BLEProtocolError` and `BLETimeoutError` are NOT
subclasses of `BLEConnectionError` (exceptions.py), so they do not match. -/
def inRetryTuple : PyExc → Bool
  | .bleakNotFoundError => true
  | .bleConnectionError => true
  | .asyncioTimeoutError => true
  | _ => false

/-- `scan_timeout = min(60.0 + attempt * 2.0, 60.0)` (connection.py line 48). -/
def scan_timeout (attempt : Nat) : ℚ := min (60 + attempt * 2) 60

/-- `connection_timeout = min(10.0 + attempt * 5.0, 30.0)` (connection.py line 66). -/
def connection_timeout (attempt : Nat) : ℚ := min (10 + attempt * 5) 30

/-- What the environment does on one iteration of the `__aenter__` attempt
loop: the scanner finds no device; or the device is found and then some step
between `establish_connection` and `start_notify` raises; or the found
device's characteristic fails to resolve; or `protocol.initialize_connection`
(the handshake) raises; or everything succeeds. -/
inductive AttemptOutcome
  | notFound
  | linkRaise (e : PyExc)
  | charUnresolved
  | handshakeRaise (e : PyExc)
  | success
  deriving DecidableEq, Repr

/-- Observable events of one `__aenter__` call, in order. -/
inductive Event
  /-- the `await asyncio.sleep(0.5)` before a fresh scan on attempts > 0. -/
  | scanPause
  /-- an inter-attempt backoff `await asyncio.sleep(delay)` of the given duration. -/
  | backoffSleep (d : ℚ)
  /-- the `await self.client.disconnect()` after a characteristic-resolution failure. -/
  | disconnect
  /-- an `await self._cleanup()` from an `except` handler. -/
  | cleanup
  /-- the successful `return self` establishing the session. -/
  | connectSuccess
  deriving DecidableEq, Repr

/-- The duration of a backoff sleep event, if it is one. -/
def Event.sleepDur : Event → Option ℚ
  | .backoffSleep d => some d
  | _ => none

/-- Whether the event is the successful connection. -/
def Event.isSuccess : Event → Bool
  | .connectSuccess => true
  | _ => false

/-- How an `__aenter__` call ends. -/
inductive ConnResult
  /-- `return self`. -/
  | connected
  /-- `raise BLEConnectionError(f"Failed to connect to {mac} after {n} attempts: {e}")`
  from the first `except` clause, recording the attempt count. -/
  | errorAfterAttempts (attempts : Nat) (cause : PyExc)
  /-- `raise BLEConnectionError(f"Failed to connect to {mac}: {e}")` from the
  `except Exception` clause: no attempt count, no retry. -/
  | errorImmediate (cause : PyExc)
  /-- the `for` loop body never ran (only possible when `max_retries = 0`). -/
  | fellThrough
  deriving DecidableEq, Repr

/-- One `__aenter__` call of `BLEConnection` (connection.py lines 38-117),
from loop index `attempt` with `fuel` iterations remaining
(`attempt + fuel = max_retries`); `oc i` is what the environment does on
iteration `i`.  Faithful transcription of the loop body:
  - on attempts > 0 a 0.5 s pause precedes the fresh scan;
  - scanner finds nothing: if attempts remain, backoff-sleep
    `base * 2 ^ attempt` and continue, else the not-found
    `BLEConnectionError` raised in the `try` is caught by the first `except`
    clause, `_cleanup` runs, and (being the last attempt) the terminal
    wrapping error is raised;
  - characteristic unresolved: `disconnect`, then retry with the same
    backoff, or on the last attempt the raised `BLEConnectionError` is
    caught, `_cleanup` runs, terminal error;
  - any exception raised after the device was found: `_cleanup`, then if it
    matches the retry tuple and attempts remain, backoff and continue; if it
    matches and none remain, terminal error with attempt count; if it does
    not match the tuple, immediate terminal error without retry;
  - success: `return self`.
The events preceding the scan in one loop iteration are split into
`preEvents`: on attempts > 0 the source pauses 0.5 s before a mandatory
fresh scan (connection.py lines 51-55). -/
def preEvents (attempt : Nat) : List Event :=
  if attempt = 0 then [] else [.scanPause]

def aenterGo (maxRetries : Nat) (base : ℚ) (oc : Nat → AttemptOutcome) :
    Nat → Nat → List Event × ConnResult
  | _, 0 => ([], .fellThrough)
  | attempt, f + 1 =>
    match oc attempt with
    | .notFound =>
        if f = 0 then
          (preEvents attempt ++ [.cleanup],
           .errorAfterAttempts maxRetries .bleConnectionError)
        else
          (preEvents attempt ++ [.backoffSleep (base * 2 ^ attempt)]
             ++ (aenterGo maxRetries base oc (attempt + 1) f).1,
           (aenterGo maxRetries base oc (attempt + 1) f).2)
    | .charUnresolved =>
        if f = 0 then
          (preEvents attempt ++ [.disconnect, .cleanup],
           .errorAfterAttempts maxRetries .bleConnectionError)
        else
          (preEvents attempt ++ [.disconnect, .backoffSleep (base * 2 ^ attempt)]
             ++ (aenterGo maxRetries base oc (attempt + 1) f).1,
           (aenterGo maxRetries base oc (attempt + 1) f).2)
    | .linkRaise e =>
        if inRetryTuple e then
          if f = 0 then
            (preEvents attempt ++ [.cleanup], .errorAfterAttempts maxRetries e)
          else
            (preEvents attempt ++ [.cleanup, .backoffSleep (base * 2 ^ attempt)]
               ++ (aenterGo maxRetries base oc (attempt + 1) f).1,
             (aenterGo maxRetries base oc (attempt + 1) f).2)
        else
          (preEvents attempt ++ [.cleanup], .errorImmediate e)
    | .handshakeRaise e =>
        if inRetryTuple e then
          if f = 0 then
            (preEvents attempt ++ [.cleanup], .errorAfterAttempts maxRetries e)
          else
            (preEvents attempt ++ [.cleanup, .backoffSleep (base * 2 ^ attempt)]
               ++ (aenterGo maxRetries base oc (attempt + 1) f).1,
             (aenterGo maxRetries base oc (attempt + 1) f).2)
        else
          (preEvents attempt ++ [.cleanup], .errorImmediate e)
    | .success => (preEvents attempt ++ [.connectSuccess], .connected)

/-- A full `__aenter__` call: the loop from attempt 0 with `maxRetries`
iterations available.  The source hardcodes `max_retries = 6` and
`base_delay = 1.0` (connection.py lines 40-41); the loop body is modelled
parametrically in both. -/
def aenter (maxRetries : Nat) (base : ℚ) (oc : Nat → AttemptOutcome) :
    List Event × ConnResult :=
  aenterGo maxRetries base oc 0 maxRetries

/-- `max_retries = 6` (connection.py line 40). -/
def max_retries : Nat := 6

/-- `base_delay = 1.0` (connection.py line 41). -/
def base_delay : ℚ := 1

/-- The transport link handle (`BleakClient`), reduced to the one field
`_cleanup` inspects: `is_connected`. -/
structure ClientState where
  is_connected : Bool
  deriving DecidableEq, Repr

/-- The mutable state of a `BLEConnection` object (connection.py
`__init__`, lines 22-36): the link handle (`None` until an open attempt
assigns it), the resolved write characteristic (`None` until resolved,
modelled as an opaque handle number), the pending-response
`asyncio.Queue()` contents in FIFO order, and the notification flag. -/
structure ConnState where
  client : Option ClientState
  write_char : Option Nat
  response_queue : List Bytes
  notification_active : Bool
  deriving DecidableEq, Repr

/-- A freshly constructed `BLEConnection` (`__init__`): no client, no
characteristic, empty queue (`asyncio.Queue()` with no `maxsize`, i.e.
unbounded), notifications inactive. -/
def ConnState.init : ConnState :=
  { client := none, write_char := none, response_queue := [], notification_active := false }

/-- Whether the transport calls `stop_notify` / `disconnect` raise when
`_cleanup` invokes them (the environment's choice, quantified over in the
theorems). -/
structure LinkEnv where
  stop_notify_raises : Bool
  disconnect_raises : Bool
  deriving DecidableEq, Repr

/-- `await self.client.stop_notify(self.write_char)`: may raise. -/
def stop_notify (env : LinkEnv) : Except PyExc Unit :=
  if env.stop_notify_raises then .error .genericError else .ok ()

/-- `await self.client.disconnect()`: may raise. -/
def disconnect (env : LinkEnv) : Except PyExc Unit :=
  if env.disconnect_raises then .error .genericError else .ok ()

/-- The notification-teardown half of `_cleanup` (connection.py lines
125-131): if notifications are active, `stop_notify` runs inside
`try/except Exception: pass` with a `finally` that clears the flag whether
or not it raised. -/
def cleanupNotify (env : LinkEnv) (st : ConnState) : ConnState :=
  if st.notification_active then
    match stop_notify env with
    | .ok _ => { st with notification_active := false }
    | .error _ => { st with notification_active := false }
  else st

/-- `BLEConnection._cleanup` (connection.py lines 123-136).  If there is no
client or it is not connected, the body is skipped entirely.  Otherwise the
notification teardown runs, then `disconnect` inside
`try/except Exception: pass` (a raising `disconnect` leaves the link flag
as it was).  The result is `Except` so that "never raises" is a theorem
about every path, not a typing accident. -/
def cleanup (env : LinkEnv) (st : ConnState) : Except PyExc ConnState :=
  match st.client with
  | none => .ok st
  | some c =>
    if c.is_connected then
      match disconnect env with
      | .ok _ => .ok { cleanupNotify env st with client := some { is_connected := false } }
      | .error _ => .ok (cleanupNotify env st)
    else .ok st

/-- `n` consecutive `_cleanup` calls, propagating any raise. -/
def cleanupN (env : LinkEnv) : ConnState → Nat → Except PyExc ConnState
  | st, 0 => .ok st
  | st, n + 1 =>
    match cleanup env st with
    | .ok st' => cleanupN env st' n
    | .error e => .error e

/-- `BLEConnection._notification_callback` (connection.py lines 157-162):
`self._response_queue.put_nowait(bytes(data))`.  The queue was constructed
as `asyncio.Queue()` — unbounded — so `put_nowait` always succeeds and the
`except asyncio.QueueFull` guard is unreachable; the value is appended at
the tail. -/
def notification_callback (st : ConnState) (data : Bytes) : ConnState :=
  { st with response_queue := st.response_queue ++ [data] }

/-- `BLEConnection.write_command_with_response` (connection.py lines
164-179), with the asynchronous wait made explicit: `arrivals` is the
sequence of notifications the device delivers after the write and before
the `timeout` deadline.  The call first drains every value already in the
queue (`while not empty: get_nowait`), then writes the command
(`_write_raw` raises `BLEProtocolError` when no write characteristic is
set), then `await asyncio.wait_for(self._response_queue.get(), timeout)`:
the first arrival, if any, is returned; with no arrival the
`asyncio.TimeoutError` is re-raised as `BLETimeoutError`.  Later arrivals
stay queued. -/
def write_command_with_response (st : ConnState) (command : Bytes) (arrivals : List Bytes) :
    Except PyExc Bytes × ConnState :=
  let drained : ConnState := { st with response_queue := [] }
  match st.write_char with
  | none => (.error .bleProtocolError, drained)
  | some _ =>
    match arrivals with
    | [] => (.error .bleTimeoutError, drained)
    | r :: rest => (.ok r, { drained with response_queue := rest })

/-- `BLEConnection.write_command` (connection.py lines 181-183): a bare
`_write_raw`, touching no queue state. -/
def write_command (st : ConnState) (data : Bytes) : Except PyExc Unit × ConnState :=
  match st.write_char with
  | none => (.error .bleProtocolError, st)
  | some _ => (.ok (), st)

/-! ### Discovery (`eink_cli/ble/discovery.py`) -/

/-- The address normalization the source applies before every address
comparison: Python `str.upper()` (discovery.py `_parse_device` line 71 and
`find_device_by_mac` line 92; also device.py line 51) — uppercase every
character, exactly `String.toUpper` written over the character list.
There is no other normalization in the source — in particular no separator
rewriting. -/
def normalize_address (s : String) : String := ⟨s.data.map Char.toUpper⟩

/-- `KNOWN_MANUFACTURER_IDS = {0x1337: 'atc', 0x2446: 'oepl'}`
(discovery.py lines 15-18).  A Python dict iterates in insertion order, so
the table is an association list in the written order: 0x1337 first. -/
def KNOWN_MANUFACTURER_IDS : List (Nat × String) :=
  [(0x1337, "atc"), (0x2446, "oepl")]

/-- One advertisement as discovery sees it: the advertised device (address
and optional name) plus its advertisement data (manufacturer-data dict and
signal strength). -/
structure Advertisement where
  address : String
  name : Option String
  manufacturer_data : List (Nat × Bytes)
  rssi : Int
  deriving DecidableEq, Repr

/-- `mfg_id in manufacturer_data` / `manufacturer_data[mfg_id]`: dict
membership and lookup on the manufacturer-data mapping. -/
def mfgLookup (md : List (Nat × Bytes)) (k : Nat) : Option Bytes :=
  (md.find? (fun p => p.1 == k)).map (fun p => p.2)

/-- The dictionary `_parse_device` returns for a recognized device. -/
structure DeviceInfo where
  mac_address : String
  name : String
  protocol : String
  manufacturer_id : Nat
  rssi : Int
  adv_data : Bytes
  deriving DecidableEq, Repr

/-- `_parse_device` (discovery.py lines 52-77): iterate
`KNOWN_MANUFACTURER_IDS` in order and `return` the device dictionary for
the FIRST id present in the advertisement's manufacturer data; `None` when
none is.  The address is uppercased; a missing or empty device name falls
back to the generated label (Python `or` treats `""` as falsy). -/
def parse_device (adv : Advertisement) : Option DeviceInfo :=
  KNOWN_MANUFACTURER_IDS.findSome? fun idProto =>
    match mfgLookup adv.manufacturer_data idProto.1 with
    | some payload =>
        some { mac_address := normalize_address adv.address
               name := match adv.name with
                       | some n => if n = "" then "EInk Device (" ++ idProto.2.toUpper ++ ")" else n
                       | none => "EInk Device (" ++ idProto.2.toUpper ++ ")"
               protocol := idProto.2
               manufacturer_id := idProto.1
               rssi := adv.rssi
               adv_data := payload }
    | none => none

/-- `discover_devices` (discovery.py lines 21-49), given the advertisements
the scanner observed: parse each and keep the recognized ones, in
observation order. -/
def discover_devices (scanned : List Advertisement) : List DeviceInfo :=
  scanned.filterMap parse_device

/-- `find_device_by_mac` (discovery.py lines 80-101): uppercase the target
address, discover, and return the first device whose `mac_address` equals
it. -/
def find_device_by_mac (mac : String) (scanned : List Advertisement) : Option DeviceInfo :=
  (discover_devices scanned).find? (fun d => d.mac_address == normalize_address mac)

/-! ### Upload retry loop (`eink_cli/device.py`, `DeviceManager.upload_image`) -/

/-- What one iteration of the upload loop does once the connection and
uploader are assembled: the protocol-specific uploader returns `True`,
returns `False`, or some step of the attempt raises. -/
inductive UploadOutcome
  | resultTrue
  | resultFalse
  | raiseExc (e : PyExc)
  deriving DecidableEq, Repr

/-- Observable events of one `upload_image` call. -/
inductive UEvent
  /-- an iteration of the attempt loop began. -/
  | attemptStart
  /-- an inter-attempt `await asyncio.sleep(delay)` of the given duration. -/
  | sleep (d : ℚ)
  /-- the `return True` after a successful upload. -/
  | uploadSuccess
  deriving DecidableEq, Repr

/-- The duration of a sleep event, if it is one. -/
def UEvent.sleepDur : UEvent → Option ℚ
  | .sleep d => some d
  | _ => none

/-- Whether the event is the start of a loop iteration. -/
def UEvent.isStart : UEvent → Bool
  | .attemptStart => true
  | _ => false

/-- `DeviceManager.upload_image` (device.py lines 103-185), from loop index
`attempt` with `fuel` iterations remaining (`attempt + fuel = maxRetries`):
  - uploader returns `True`: `return True`;
  - uploader returns `False`: if attempts remain, sleep
    `base * (attempt + 1)` and retry, else `return False`;
  - any exception: caught by `except Exception`; if attempts remain, sleep
    `base * (attempt + 1)` and retry, else `return False`;
  - loop exhausted (`maxRetries = 0`): the trailing `return False`. -/
def uploadGo (maxRetries : Nat) (base : ℚ) (oc : Nat → UploadOutcome) :
    Nat → Nat → List UEvent × Bool
  | _, 0 => ([], false)
  | attempt, f + 1 =>
    match oc attempt with
    | .resultTrue => ([.attemptStart, .uploadSuccess], true)
    | .resultFalse =>
        if f = 0 then ([.attemptStart], false)
        else
          ([.attemptStart, .sleep (base * (attempt + 1))]
             ++ (uploadGo maxRetries base oc (attempt + 1) f).1,
           (uploadGo maxRetries base oc (attempt + 1) f).2)
    | .raiseExc _ =>
        if f = 0 then ([.attemptStart], false)
        else
          ([.attemptStart, .sleep (base * (attempt + 1))]
             ++ (uploadGo maxRetries base oc (attempt + 1) f).1,
           (uploadGo maxRetries base oc (attempt + 1) f).2)

/-- A full `upload_image` call: `max_upload_retries = max_retries`
(parameter, default 3), `base_delay = 2.0` (device.py lines 121-122). -/
def upload_image (maxRetries : Nat) (base : ℚ) (oc : Nat → UploadOutcome) :
    List UEvent × Bool :=
  uploadGo maxRetries base oc 0 maxRetries

/-- `base_delay = 2.0` of the upload loop (device.py line 122). -/
def upload_base_delay : ℚ := 2

/-! ### Concrete environments used to instantiate the theorems -/

/-- A run in which the scanner misses the device on attempts 0 and 1 and
finds it (with everything after succeeding) on attempt 2. -/
def twoMissesThenFound : Nat → AttemptOutcome :=
  fun i => if i < 2 then .notFound else .success

/-- A run in which the device is found at once but the protocol handshake
raises `BLEProtocolError` on every attempt. -/
def handshakeAlwaysFails : Nat → AttemptOutcome :=
  fun _ => .handshakeRaise .bleProtocolError

/-- An upload run whose first attempt yields a `False` result and whose
later attempts raise. -/
def uploadAlwaysFails : Nat → UploadOutcome :=
  fun i => if i = 0 then .resultFalse else .raiseExc .genericError

/-- An open, subscribed connection with a stale notification sitting in the
response queue. -/
def staleQueueConn : ConnState :=
  { client := some { is_connected := true }, write_char := some 7,
    response_queue := [[170]], notification_active := true }

/-- An advertisement from a device at `AA:BB:CC:DD:EE:FF` carrying the ATC
manufacturer id. -/
def advColonUpper : Advertisement :=
  { address := "AA:BB:CC:DD:EE:FF", name := some "tag",
    manufacturer_data := [(0x1337, [1])], rssi := -60 }

/-- An advertisement carrying BOTH known manufacturer ids. -/
def advBothIds : Advertisement :=
  { address := "aa:bb:cc:dd:ee:ff", name := none,
    manufacturer_data := [(0x1337, [1, 2]), (0x2446, [3])], rssi := -42 }

/-!
## Theorems

Helper lemmas first, then one theorem per claim (with its witness or
counterexample where required).
-/

/-- `preEvents` contains no successful-connection event. -/
theorem preEvents_countP (attempt : Nat) :
    (preEvents attempt).countP Event.isSuccess = 0 := by
  unfold preEvents; split <;> rfl

/-- `preEvents` contains no backoff sleep. -/
theorem preEvents_filterMap (attempt : Nat) :
    (preEvents attempt).filterMap Event.sleepDur = [] := by
  unfold preEvents; split <;> rfl

/-- Main loop invariant behind claim C1: starting at `attempt` with `fuel`
iterations left (`attempt + fuel = N`), if the scanner misses on every
attempt before `N - 1` and attempt `N - 1` succeeds, the loop connects,
emits exactly one success event, and backoff-sleeps exactly
`base * 2 ^ i` for `i = attempt, …, N - 2`, in order. -/
theorem aenterGo_notFound_success (N : Nat) (base : ℚ) (oc : Nat → AttemptOutcome)
    (hsucc : oc (N - 1) = .success) :
    ∀ f attempt, attempt + f = N → 1 ≤ f →
      (∀ i, attempt ≤ i → i + 1 < N → oc i = .notFound) →
      (aenterGo N base oc attempt f).2 = .connected ∧
      (aenterGo N base oc attempt f).1.countP Event.isSuccess = 1 ∧
      (aenterGo N base oc attempt f).1.filterMap Event.sleepDur
        = (List.range' attempt (N - 1 - attempt)).map (fun i => base * 2 ^ i) := by
  intro f
  induction f with
  | zero => intro attempt _ h1 _; exact absurd h1 (by omega)
  | succ f ih =>
    intro attempt hsum _ hfail
    rcases Nat.eq_zero_or_pos f with hf | hf
    · subst hf
      have hatt : attempt = N - 1 := by omega
      have hoc : oc attempt = .success := by rw [hatt]; exact hsucc
      have hrange : N - 1 - attempt = 0 := by omega
      simp only [aenterGo, hoc, hrange, List.range', List.map_nil]
      refine ⟨trivial, ?_, ?_⟩
      · rw [List.countP_append, preEvents_countP]; rfl
      · rw [List.filterMap_append, preEvents_filterMap]; rfl
    · have hoc : oc attempt = .notFound := hfail attempt (Nat.le_refl _) (by omega)
      have ih' := ih (attempt + 1) (by omega) (by omega)
        (fun i hi h2 => hfail i (by omega) h2)
      simp only [aenterGo, hoc]
      rw [if_neg (by omega)]
      refine ⟨ih'.1, ?_, ?_⟩
      · rw [List.countP_append, List.countP_append, preEvents_countP, ih'.2.1]
        rfl
      · rw [List.filterMap_append, List.filterMap_append, preEvents_filterMap,
          ih'.2.2]
        rw [show N - 1 - attempt = (N - 1 - (attempt + 1)) + 1 from by omega,
          List.range'_succ]
        rfl

/-- C1: for every `maxRetries = N ≥ 1` and base delay, if the open attempt
loop fails to find the device on attempts `0 .. N-2` and succeeds on
attempt `N-1`, then exactly one successful connection is produced
(`connected` outcome, one success event) and exactly `N-1` backoff sleeps
are performed, with durations `base * 2 ^ attempt` for
`attempt = 0 .. N-2`, in that order. -/
theorem connect_notFound_retry_schedule (N : Nat) (base : ℚ)
    (oc : Nat → AttemptOutcome) (hN : 1 ≤ N)
    (hfail : ∀ i, i + 1 < N → oc i = .notFound)
    (hsucc : oc (N - 1) = .success) :
    (aenter N base oc).2 = .connected ∧
    (aenter N base oc).1.countP Event.isSuccess = 1 ∧
    (aenter N base oc).1.filterMap Event.sleepDur
      = (List.range (N - 1)).map (fun i => base * 2 ^ i) := by
  have h := aenterGo_notFound_success N base oc hsucc N 0 (by omega) hN
    (fun i _ h2 => hfail i h2)
  rw [List.range_eq_range']
  simpa [aenter] using h

/-- Witness for C1 at `N = 3`, `base = 1`: two misses then success yield a
connection, one success event, and backoff sleeps of exactly 1 s and 2 s. -/
theorem connect_notFound_retry_schedule_witness :
    (aenter 3 1 twoMissesThenFound).2 = .connected ∧
    (aenter 3 1 twoMissesThenFound).1.countP Event.isSuccess = 1 ∧
    (aenter 3 1 twoMissesThenFound).1.filterMap Event.sleepDur = [1, 2] := by
  have h := connect_notFound_retry_schedule 3 1 twoMissesThenFound (by omega)
    (fun i hi => by
      have h2 : i < 2 := by omega
      simp [twoMissesThenFound, h2])
    (by decide)
  refine ⟨h.1, h.2.1, ?_⟩
  rw [h.2.2]
  norm_num [List.range_succ]

/-- C3 counterexample: with `max_retries = 6` and the handshake raising
`BLEProtocolError` on every attempt, the very first attempt ends the open
terminally — one cleanup, no backoff sleep, and the error is raised from
the generic `except Exception` branch (no attempt count) — because
`BLEProtocolError` is not a subclass of `BLEConnectionError` and so does
not match the retry `except` tuple.  This contradicts the claim that a
handshake `ProtocolError` is retried with backoff while attempts remain. -/
theorem handshake_protocol_error_cex :
    (aenter 6 1 handshakeAlwaysFails).2 = .errorImmediate .bleProtocolError ∧
    (aenter 6 1 handshakeAlwaysFails).1 = [.cleanup] := by
  decide

/-- C3 amended: if the handshake raises a `ProtocolError` during the first
open attempt, the Connection Lifecycle Manager performs cleanup and raises
a terminal `BLEConnectionError` immediately (through the generic
`except Exception` path, whose message carries no attempt count),
performing no backoff sleep and consuming no further attempts; only
`BleakNotFoundError`, `BLEConnectionError` and `asyncio.TimeoutError` are
retried with exponential backoff. -/
theorem handshake_protocol_error_terminal (N : Nat) (base : ℚ)
    (oc : Nat → AttemptOutcome) (hN : 1 ≤ N)
    (h0 : oc 0 = .handshakeRaise .bleProtocolError) :
    aenter N base oc = ([.cleanup], .errorImmediate .bleProtocolError) := by
  obtain ⟨f, rfl⟩ : ∃ f, N = f + 1 := ⟨N - 1, by omega⟩
  simp [aenter, aenterGo, h0, inRetryTuple, preEvents]

/-- Witness for the amended C3 at the source's own constants
(`max_retries = 6`, `base_delay = 1.0`). -/
theorem handshake_protocol_error_terminal_witness :
    aenter 6 1 handshakeAlwaysFails
      = ([.cleanup], .errorImmediate .bleProtocolError) :=
  handshake_protocol_error_terminal 6 1 handshakeAlwaysFails (by omega) rfl

/-- C9 (code bug): the per-attempt scan timeout
`min(60.0 + attempt * 2.0, 60.0)` (connection.py line 48) equals 60.0 at
EVERY attempt, so no later attempt ever scans longer than attempt 0 — the
`min` cap equals the base term's constant.  This contradicts the claim
(and the source's own comment on line 47, "Find device with longer timeout
on later attempts"); the link timeout `min(10.0 + attempt * 5.0, 30.0)`
(line 66), by contrast, does grow. -/
theorem scan_timeout_never_grows (attempt : Nat) :
    scan_timeout attempt = 60 ∧ scan_timeout attempt = scan_timeout 0 ∧
    connection_timeout 0 < connection_timeout 1 := by
  have h : ∀ a : Nat, scan_timeout a = 60 := by
    intro a
    unfold scan_timeout
    have ha : (0 : ℚ) ≤ (a : ℚ) * 2 := by positivity
    rw [min_eq_right (by linarith)]
  refine ⟨h attempt, by rw [h attempt, h 0], ?_⟩
  show connection_timeout 0 < connection_timeout 1
  norm_num [connection_timeout]

/-- C2: `write_command_with_response` never returns a notification that was
already queued before the write: whatever stale values sit in the response
queue when the call starts, they are drained before the write, and the
value returned is the first notification delivered after the write (the
genuine response), with the stale values gone from the final state. -/
theorem sendWithResponse_pre_write_drain (st : ConnState) (c : Nat)
    (command stale genuine : Bytes) (staleRest arrivalsRest : List Bytes)
    (hchar : st.write_char = some c)
    (hstale : st.response_queue = stale :: staleRest) :
    (write_command_with_response st command (genuine :: arrivalsRest)).1
      = .ok genuine ∧
    (write_command_with_response st command (genuine :: arrivalsRest)).2.response_queue
      = arrivalsRest := by
  unfold write_command_with_response
  rw [hchar]
  exact ⟨rfl, rfl⟩

/-- Witness for C2: a connection holding the stale notification `[170]`
returns the genuine post-write response `[2]`, and the stale value is no
longer queued. -/
theorem sendWithResponse_pre_write_drain_witness :
    (write_command_with_response staleQueueConn [1] [[2]]).1 = .ok [2] ∧
    (write_command_with_response staleQueueConn [1] [[2]]).2.response_queue
      = [] :=
  sendWithResponse_pre_write_drain staleQueueConn 7 [1] [170] [2] [] [] rfl rfl

/-- `_cleanup` never raises: every branch returns `.ok`, whatever the
state and however `stop_notify`/`disconnect` behave. -/
theorem cleanup_ok (env : LinkEnv) (st : ConnState) :
    ∃ st', cleanup env st = .ok st' := by
  unfold cleanup
  split
  · exact ⟨_, rfl⟩
  · split
    · split
      · exact ⟨_, rfl⟩
      · exact ⟨_, rfl⟩
    · exact ⟨_, rfl⟩

/-- `_cleanup` on a never-opened connection (`self.client` is `None`) is a
no-op. -/
theorem cleanup_never_opened (env : LinkEnv) (st : ConnState)
    (h : st.client = none) : cleanup env st = .ok st := by
  unfold cleanup
  rw [h]

/-- `_cleanup` on an already-disconnected connection is a no-op. -/
theorem cleanup_not_connected (env : LinkEnv) (st : ConnState) (c : ClientState)
    (h : st.client = some c) (hc : c.is_connected = false) :
    cleanup env st = .ok st := by
  unfold cleanup
  rw [h]
  simp [hc]

/-- Any number of consecutive `_cleanup` calls succeeds. -/
theorem cleanupN_ok (env : LinkEnv) :
    ∀ (n : Nat) (st : ConnState), ∃ st', cleanupN env st n = .ok st' := by
  intro n
  induction n with
  | zero => intro st; exact ⟨st, rfl⟩
  | succ n ih =>
    intro st
    obtain ⟨st1, h1⟩ := cleanup_ok env st
    obtain ⟨st2, h2⟩ := ih st1
    exact ⟨st2, by simp [cleanupN, h1, h2]⟩

/-- When one `_cleanup` is a no-op, so is any number of them. -/
theorem cleanupN_noop (env : LinkEnv) (st : ConnState)
    (h : cleanup env st = .ok st) : ∀ n, cleanupN env st n = .ok st := by
  intro n
  induction n with
  | zero => rfl
  | succ n ih => simp [cleanupN, h, ih]

/-- C4: if a write was issued (the characteristic is resolved) and no
response arrives within the timeout, `write_command_with_response` raises
`BLETimeoutError`, and the resulting connection state is one on which
`_cleanup` still succeeds without raising, for every behaviour of the
underlying `stop_notify`/`disconnect`. -/
theorem sendWithResponse_timeout_close_ok (st : ConnState) (c : Nat)
    (command : Bytes) (env : LinkEnv) (hchar : st.write_char = some c) :
    (write_command_with_response st command []).1 = .error .bleTimeoutError ∧
    ∃ st', cleanup env (write_command_with_response st command []).2 = .ok st' := by
  constructor
  · unfold write_command_with_response
    rw [hchar]
  · exact cleanup_ok env _

/-- Witness for C4: the connection with a resolved characteristic times
out with `BLETimeoutError` and still cleans up. -/
theorem sendWithResponse_timeout_close_ok_witness :
    (write_command_with_response staleQueueConn [1] []).1
      = .error .bleTimeoutError ∧
    ∃ st', cleanup { stop_notify_raises := true, disconnect_raises := true }
      (write_command_with_response staleQueueConn [1] []).2 = .ok st' :=
  sendWithResponse_timeout_close_ok staleQueueConn 7 [1] _ rfl

/-- C5: close/cleanup is total and idempotent: for every connection state,
every behaviour of the underlying transport calls, and every number `n` of
consecutive `_cleanup` calls, no call raises; and on a never-opened or
already-disconnected connection the calls are a no-op, leaving the state
unchanged. -/
theorem cleanup_idempotent_never_raises (env : LinkEnv) (st : ConnState) (n : Nat) :
    (∃ st', cleanupN env st n = .ok st') ∧
    (st.client = none → cleanupN env st n = .ok st) ∧
    (∀ c, st.client = some c → c.is_connected = false →
      cleanupN env st n = .ok st) := by
  refine ⟨cleanupN_ok env n st, ?_, ?_⟩
  · intro h
    exact cleanupN_noop env st (cleanup_never_opened env st h) n
  · intro c h hc
    exact cleanupN_noop env st (cleanup_not_connected env st c h hc) n

/-- Witness for C5: three consecutive cleanups of a freshly constructed
(never-opened) connection, under transport calls that would raise, are a
no-op. -/
theorem cleanup_idempotent_never_raises_witness :
    cleanupN { stop_notify_raises := true, disconnect_raises := true }
      ConnState.init 3 = .ok ConnState.init :=
  (cleanup_idempotent_never_raises
    { stop_notify_raises := true, disconnect_raises := true }
    ConnState.init 3).2.1 rfl

/-- C8 counterexample: the response channel is NOT single-slot.  It is an
`asyncio.Queue()` with no `maxsize`, i.e. unbounded: a freshly constructed
connection that receives two notifications with no intervening read — a
reachable point in a connection's life — holds TWO undelivered
notifications at once. -/
theorem response_queue_capacity_cex :
    ¬ (notification_callback (notification_callback ConnState.init [1])
        [2]).response_queue.length ≤ 1 := by
  decide

/-- C8 amended: the pending-response channel is an unbounded FIFO queue
(`asyncio.Queue()` with default `maxsize = 0`): every notification
delivery appends unconditionally (never drops — the `QueueFull` guard is
unreachable), so any number of undelivered notifications may be buffered;
`write_command_with_response` compensates by draining every buffered value
before writing, so a command that times out leaves none of the pre-call
values behind. -/
theorem response_queue_unbounded (st : ConnState) (d command : Bytes) :
    (notification_callback st d).response_queue = st.response_queue ++ [d] ∧
    (write_command_with_response st command []).2.response_queue = [] := by
  obtain ⟨cl, wc, q, na⟩ := st
  cases wc <;> exact ⟨rfl, rfl⟩

/-- Main loop invariant behind claim C6: starting at `attempt` with `fuel`
iterations left, if no attempt ever yields a `True` result, the loop
returns `False`, performs exactly `fuel` attempts, and sleeps
`base * (i + 1)` for `i = attempt, …, attempt + fuel - 2`, in order. -/
theorem uploadGo_all_fail (N : Nat) (base : ℚ) (oc : Nat → UploadOutcome)
    (hfail : ∀ i, i < N → oc i ≠ .resultTrue) :
    ∀ f attempt, attempt + f = N →
      (uploadGo N base oc attempt f).2 = false ∧
      (uploadGo N base oc attempt f).1.countP UEvent.isStart = f ∧
      (uploadGo N base oc attempt f).1.filterMap UEvent.sleepDur
        = (List.range' attempt (f - 1)).map (fun i => base * (i + 1)) := by
  intro f
  induction f with
  | zero => intro attempt _; exact ⟨rfl, rfl, rfl⟩
  | succ f ih =>
    intro attempt hsum
    have hne : oc attempt ≠ .resultTrue := hfail attempt (by omega)
    rcases Nat.eq_zero_or_pos f with hf | hf
    · subst hf
      cases hoc : oc attempt with
      | resultTrue => exact absurd hoc hne
      | resultFalse => simp [uploadGo, hoc, UEvent.isStart, UEvent.sleepDur]
      | raiseExc e => simp [uploadGo, hoc, UEvent.isStart, UEvent.sleepDur]
    · have ih' := ih (attempt + 1) (by omega)
      have hstep : List.range' attempt (f + 1 - 1)
          = attempt :: List.range' (attempt + 1) (f - 1) := by
        rw [show f + 1 - 1 = (f - 1) + 1 from by omega, List.range'_succ]
      cases hoc : oc attempt with
      | resultTrue => exact absurd hoc hne
      | resultFalse =>
        simp only [uploadGo, hoc]
        rw [if_neg (by omega)]
        refine ⟨ih'.1, ?_, ?_⟩
        · rw [List.countP_append, ih'.2.1]
          have hcount : List.countP UEvent.isStart
              [UEvent.attemptStart, UEvent.sleep (base * ((attempt : ℚ) + 1))] = 1 := rfl
          omega
        · rw [List.filterMap_append, ih'.2.2, hstep]; rfl
      | raiseExc e =>
        simp only [uploadGo, hoc]
        rw [if_neg (by omega)]
        refine ⟨ih'.1, ?_, ?_⟩
        · rw [List.countP_append, ih'.2.1]
          have hcount : List.countP UEvent.isStart
              [UEvent.attemptStart, UEvent.sleep (base * ((attempt : ℚ) + 1))] = 1 := rfl
          omega
        · rw [List.filterMap_append, ih'.2.2, hstep]; rfl

/-- C6: for every retry bound `N ≥ 1`, if every upload attempt either
yields a `False` result from the protocol-specific uploader or raises an
exception, then `upload_image` performs exactly `N` attempts, sleeps
`base * (attempt + 1)` between consecutive attempts
(i.e. for `attempt = 0 .. N-2`), and returns `false` — the exceptions all
being caught, never propagated to the caller (the call returns a plain
boolean on every such run). -/
theorem upload_all_fail_returns_false (N : Nat) (base : ℚ)
    (oc : Nat → UploadOutcome) (hN : 1 ≤ N)
    (hfail : ∀ i, i < N → oc i = .resultFalse ∨ ∃ e, oc i = .raiseExc e) :
    (upload_image N base oc).2 = false ∧
    (upload_image N base oc).1.countP UEvent.isStart = N ∧
    (upload_image N base oc).1.filterMap UEvent.sleepDur
      = (List.range (N - 1)).map (fun i => base * (i + 1)) := by
  have h := uploadGo_all_fail N base oc
    (fun i hi => by rcases hfail i hi with h | ⟨e, h⟩ <;> simp [h]) N 0 (by omega)
  rw [List.range_eq_range']
  simpa [upload_image] using h

/-- Witness for C6 at the source's defaults (`max_retries = 3`,
`base_delay = 2.0`): one `False` result then two raises give three
attempts, inter-attempt sleeps of 2 s and 4 s, and result `false`. -/
theorem upload_all_fail_returns_false_witness :
    (upload_image 3 2 uploadAlwaysFails).2 = false ∧
    (upload_image 3 2 uploadAlwaysFails).1.countP UEvent.isStart = 3 ∧
    (upload_image 3 2 uploadAlwaysFails).1.filterMap UEvent.sleepDur
      = [2, 4] := by
  have h := upload_all_fail_returns_false 3 2 uploadAlwaysFails (by omega)
    (fun i hi => by
      rcases Nat.eq_zero_or_pos i with h0 | h0
      · subst h0; left; rfl
      · right
        exact ⟨.genericError, by simp [uploadAlwaysFails, Nat.pos_iff_ne_zero.mp h0]⟩)
  refine ⟨h.1, h.2.1, ?_⟩
  rw [h.2.2]
  norm_num [List.range_succ]

/-- C7 counterexample: address normalization does NOT make the
dash-separated spelling equal to the colon-separated ones.  The source
normalizes only by uppercasing, so `"AA-BB-CC-DD-EE-FF"` normalizes to a
string different from the canonical `"AA:BB:CC:DD:EE:FF"`, and
`find_device_by_mac` fails to find a device advertising at
`AA:BB:CC:DD:EE:FF` when given the dash spelling, while the lowercase
colon spelling succeeds. -/
theorem address_normalization_cex :
    normalize_address "AA-BB-CC-DD-EE-FF"
      ≠ normalize_address "aa:bb:cc:dd:ee:ff" ∧
    find_device_by_mac "aa:bb:cc:dd:ee:ff" [advColonUpper] ≠ none ∧
    find_device_by_mac "AA-BB-CC-DD-EE-FF" [advColonUpper] = none := by
  decide

/-- C7 amended: address normalization is uppercasing only.
`"aa:bb:cc:dd:ee:ff"` and `"AA:BB:CC:DD:EE:FF"` both normalize to the
canonical uppercase colon-separated form and are treated as equal by the
`find_device_by_mac` match, but `"AA-BB-CC-DD-EE-FF"` normalizes to the
dash-separated string itself and is not treated as equal to the colon
forms. -/
theorem address_normalization_upper_only :
    normalize_address "aa:bb:cc:dd:ee:ff" = "AA:BB:CC:DD:EE:FF" ∧
    normalize_address "AA:BB:CC:DD:EE:FF" = "AA:BB:CC:DD:EE:FF" ∧
    normalize_address "AA-BB-CC-DD-EE-FF" = "AA-BB-CC-DD-EE-FF" ∧
    find_device_by_mac "aa:bb:cc:dd:ee:ff" [advColonUpper]
      = find_device_by_mac "AA:BB:CC:DD:EE:FF" [advColonUpper] ∧
    (find_device_by_mac "aa:bb:cc:dd:ee:ff" [advColonUpper]).isSome = true := by
  decide

/-- C10: an advertisement whose manufacturer data contains BOTH known
manufacturer codes (0x1337 and 0x2446) yields exactly one device
descriptor from discovery — `_parse_device` returns at the first match of
its in-insertion-order iteration over `KNOWN_MANUFACTURER_IDS`, so the
descriptor is classified as the 0x1337 (`atc`) family; and the one
advertisement contributes exactly the one descriptor to the discovery
result. -/
theorem parse_device_both_ids (adv : Advertisement) (p1 p2 : Bytes)
    (h1 : mfgLookup adv.manufacturer_data 0x1337 = some p1)
    (h2 : mfgLookup adv.manufacturer_data 0x2446 = some p2) :
    ∃ d, parse_device adv = some d ∧ discover_devices [adv] = [d] ∧
      d.protocol = "atc" ∧ d.manufacturer_id = 0x1337 := by
  obtain ⟨d, hd, hproto, hmfg⟩ :
      ∃ d, parse_device adv = some d ∧ d.protocol = "atc" ∧
        d.manufacturer_id = 0x1337 := by
    unfold parse_device KNOWN_MANUFACTURER_IDS
    rw [List.findSome?_cons]
    simp only [h1]
    exact ⟨_, rfl, rfl, rfl⟩
  exact ⟨d, hd, by simp [discover_devices, hd], hproto, hmfg⟩

/-- Witness for C10: the advertisement carrying both ids parses to the
`atc` descriptor and contributes a single discovery entry. -/
theorem parse_device_both_ids_witness :
    ∃ d, parse_device advBothIds = some d ∧
      discover_devices [advBothIds] = [d] ∧
      d.protocol = "atc" ∧ d.manufacturer_id = 0x1337 :=
  parse_device_both_ids advBothIds [1, 2] [3] rfl rfl

end EinkCli
